import Mathlib

/-!
Verification of the rmf-market-pulse scripts.

The repository consists of three standalone Python scripts that call the
Thailand SEC Fund Factsheet REST API, filter the returned fund records,
print them, and persist results:

* fetch-abgdd-rmf.py      - loops over a static list of 18 endpoint
  descriptors for one fund, aggregates successful responses into a dict
  keyed by a label extracted from the description, and always writes the
  dict as a JSON file.
* fetch-scb-rmf-simple.py - a sequential orchestration (urllib based):
  AMC list, SCB fund list, RMF filtering, active filtering, then writes
  a JSON file at the very end of a fully successful run.
* fetch-scb-rmf-funds.py  - the same orchestration using requests/pandas,
  with an "active funds" fallback and an Excel export.

This file is a shallow embedding of those scripts.  JSON values are an
inductive type; an HTTP exchange is modelled by its final response
(status, raw text, and the result of the JSON library decoding the text)
or a network-level error.  Python-level behaviour that matters to the
scripts is made explicit: a decoded JSON `null` is the Python value
`None`, which is the same value the error paths return, and operations
that would raise an uncaught exception are modelled in `Option` (with
`none` standing for a crash of the run).
-/

/-- A JSON value.  Numbers are modelled as integers: every number the
scripts' claims touch is integral, and no claim depends on float
semantics. -/
inductive Json where
  | null : Json
  | bool (b : Bool) : Json
  | num (n : Int) : Json
  | str (s : String) : Json
  | arr (xs : List Json) : Json
  | obj (kvs : List (String × Json)) : Json

/-- The final HTTP response of a request: status code, raw body text,
and the result of the JSON library decoding that text (`none` when the
body is not valid JSON). -/
structure HttpResponse where
  status : Nat
  text : String
  parsed : Option Json

/-- What the network hands back for one request: a final response, or a
network-level failure (connection error / timeout), in which case the
underlying HTTP library raises. -/
inductive NetResult where
  | response (r : HttpResponse) : NetResult
  | netError (msg : String) : NetResult

/-- The outcome of one `call_api` invocation in fetch-scb-rmf-funds.py:
either the function returns a Python value (`ret none` is the Python
`None`), or an exception escapes it. -/
inductive CallOutcome where
  | ret (v : Option Json) : CallOutcome
  | raised : CallOutcome

/-- Process outcome of a run: a normal return from `main` (the process
exits with code 0) or an uncaught exception (non-zero exit). -/
inductive Outcome where
  | exit0 : Outcome
  | crashed : Outcome
  deriving DecidableEq

/-- Whether a JSON value is `null` (i.e. decodes to the Python `None`). -/
def Json.isNull : Json → Bool
  | Json.null => true
  | _ => false

/-- The Python value produced by decoding a JSON value: decoding `null`
yields the Python `None`, which is indistinguishable from the failure
sentinel the error paths return. -/
def pyOfJson (v : Json) : Option Json :=
  if v.isNull then none else some v

/-- Python truthiness of a decoded JSON value. -/
def pyTruthy : Json → Bool
  | Json.null => false
  | Json.bool b => b
  | Json.num n => n != 0
  | Json.str s => !s.isEmpty
  | Json.arr xs => !xs.isEmpty
  | Json.obj kvs => !kvs.isEmpty

/-- Python `len(v)`: defined for strings, lists and dicts; `none` means
`len` raises `TypeError`. -/
def pyLen : Json → Option Nat
  | Json.str s => some s.length
  | Json.arr xs => some xs.length
  | Json.obj kvs => some kvs.length
  | _ => none

/-- Python iteration `for x in v`: list elements, string characters, or
dict keys; `none` means iteration raises `TypeError`. -/
def jIter : Json → Option (List Json)
  | Json.arr xs => some xs
  | Json.str s => some (s.toList.map (fun c => Json.str c.toString))
  | Json.obj kvs => some (kvs.map (fun p => Json.str p.1))
  | _ => none

/-- Lookup of a key in a JSON object's key/value list; the JSON decoder
keeps the last binding of a duplicated key, hence the reversed search. -/
def jLookup (kvs : List (String × Json)) (k : String) : Option Json :=
  (kvs.reverse.find? (fun p => p.1 = k)).map (fun p => p.2)

/-- Python `v.get(k, dflt)`: `none` means the receiver is not a dict and
the attribute access raises. -/
def jGet (v : Json) (k : String) (dflt : Json) : Option Json :=
  match v with
  | Json.obj kvs => some ((jLookup kvs k).getD dflt)
  | _ => none

/-- Python `v[k]` on a dict: `none` means a `KeyError` (key absent) or a
`TypeError` (receiver not a dict). -/
def jIndex (v : Json) (k : String) : Option Json :=
  match v with
  | Json.obj kvs => jLookup kvs k
  | _ => none

/-- ASCII upper-casing, the effect of Python `str.upper` on the data
these scripts handle. -/
def upperStr (s : String) : String :=
  (s.toList.map Char.toUpper).asString

/-- Python `v.upper()`: only strings have the method; `none` means an
`AttributeError`. -/
def jUpper : Json → Option String
  | Json.str s => some (upperStr s)
  | _ => none

/-- Whether `pat` is a prefix of `cs` (character by character). -/
def charsPrefix : List Char → List Char → Bool
  | [], _ => true
  | _ :: _, [] => false
  | p :: ps, c :: cs => p == c && charsPrefix ps cs

/-- Whether `pat` occurs as a contiguous substring of `cs`. -/
def charsContains (pat : List Char) : List Char → Bool
  | [] => charsPrefix pat []
  | c :: rest => charsPrefix pat (c :: rest) || charsContains pat rest

/-- Python substring test `pat in s`. -/
def strContains (s pat : String) : Bool :=
  charsContains pat.toList s.toList

/-- Fuel-driven worker for `splitOnChars`: splits `cs` at each
non-overlapping, leftmost-first occurrence of the non-empty separator
`sep`, accumulating the current piece in reverse in `acc`.  The fuel is
at least the length of `cs`, so the zero-fuel branch is unreachable. -/
def splitGo (sep : List Char) : Nat → List Char → List Char → List (List Char)
  | 0, cs, acc => [acc.reverse ++ cs]
  | _ + 1, [], acc => [acc.reverse]
  | fuel + 1, c :: rest, acc =>
    if charsPrefix sep (c :: rest) then
      acc.reverse :: splitGo sep fuel ((c :: rest).drop sep.length) []
    else
      splitGo sep fuel rest (c :: acc)

/-- Python `s.split(sep)` for a non-empty separator, on character
lists. -/
def splitOnChars (sep cs : List Char) : List (List Char) :=
  splitGo sep cs.length cs []

/-- Python `v == lit` for a string literal `lit`: equal only when `v` is
that string; comparison between different types is `False`, never an
error. -/
def jEqStr (v : Json) (lit : String) : Bool :=
  match v with
  | Json.str s => s = lit
  | _ => false

/-- Python string conversion used when a decoded value is interpolated
into an f-string URL.  Scalars are rendered as Python renders them; the
rendering of containers is abbreviated (no run in the claims
interpolates a container into a URL). -/
def pyStr : Json → String
  | Json.null => "None"
  | Json.bool true => "True"
  | Json.bool false => "False"
  | Json.num n => toString n
  | Json.str s => s
  | Json.arr _ => "[...]"
  | Json.obj _ => "\x7b...\x7d"

/-- A Python list comprehension `[x for x in xs if p x]` whose predicate
may raise: elements are tested left to right, and the first raising
element aborts the whole comprehension (`none`). -/
def pyFilterM (p : Json → Option Bool) : List Json → Option (List Json)
  | [] => some []
  | x :: rest => do
    let b ← p x
    let ys ← pyFilterM p rest
    pure (if b then x :: ys else ys)

/-! ## The three call_api variants -/

/-- `call_api` of fetch-scb-rmf-simple.py (urllib based), as seen by its
caller.  `urlopen` raises `HTTPError` for every final status outside
200-299; that handler and a catch-all `except Exception` (which also
covers network errors and JSON decode errors) both print a message and
return `None`.  On success the function returns `json.loads` of the
body, which is the Python `None` when the body is the JSON `null`. -/
def simple_call : NetResult → Option Json
  | NetResult.netError _ => none
  | NetResult.response r =>
    if 200 ≤ r.status ∧ r.status < 300 then
      match r.parsed with
      | some v => pyOfJson v
      | none => none
    else none

/-- `call_api` of fetch-abgdd-rmf.py (requests based), as seen by its
caller.  `response.raise_for_status()` raises exactly for statuses
400-599; that exception, network-level errors and JSON decode errors
are all caught (`RequestException` / `JSONDecodeError` handlers) and
turned into a printed message plus a `None` return, so this variant
never lets an exception escape. -/
def abgdd_call : NetResult → Option Json
  | NetResult.netError _ => none
  | NetResult.response r =>
    if 400 ≤ r.status ∧ r.status < 600 then none
    else
      match r.parsed with
      | some v => pyOfJson v
      | none => none

/-- `call_api` of fetch-scb-rmf-funds.py (requests based, no
try/except).  Only status exactly 200 returns the decoded body; every
other status prints the error and returns `None`.  A network-level
failure of `requests.get`, or a JSON decode failure on a 200 body,
raises an exception that nothing in the script catches. -/
def funds_call : NetResult → CallOutcome
  | NetResult.netError _ => CallOutcome.raised
  | NetResult.response r =>
    if r.status = 200 then
      match r.parsed with
      | some v => CallOutcome.ret (pyOfJson v)
      | none => CallOutcome.raised
    else CallOutcome.ret none

/-! ## fetch-abgdd-rmf.py -/

/-- The static endpoint enumeration of fetch-abgdd-rmf.py: 18 pairs of
path and human-readable description. -/
def abgdd_endpoints : List (String × String) :=
  [ ("/fund/M0570_2565/specification", "1. Fund Specification"),
    ("/fund/M0570_2565/asset", "2. Asset Allocation"),
    ("/fund/M0570_2565/policy", "3. Investment Policy"),
    ("/fund/M0570_2565/risk", "4. Risk Information"),
    ("/fund/M0570_2565/fee", "5. Fee Structure"),
    ("/fund/M0570_2565/performance", "6. Fund Performance"),
    ("/fund/M0570_2565/return", "7. Return Information"),
    ("/fund/M0570_2565/dividend", "8. Dividend History"),
    ("/fund/M0570_2565/FundPort/latest", "9. Fund Holdings (Latest)"),
    ("/fund/M0570_2565/FundTop5/latest", "10. Top 5 Holdings (Latest)"),
    ("/fund/M0570_2565/benchmark", "11. Benchmark Information"),
    ("/fund/M0570_2565/suitability", "12. Fund Suitability"),
    ("/fund/M0570_2565/redemption", "13. Redemption Information"),
    ("/fund/M0570_2565/InvolveParty", "14. Involved Parties"),
    ("/fund/M0570_2565/investment", "15. Investment Information"),
    ("/fund/M0570_2565/project_type", "16. Project Type"),
    ("/fund/M0570_2565/turnover_ratio", "17. Turnover Ratio"),
    ("/fund/M0570_2565/5YearLost", "18. 5-Year Loss Probability") ]

/-- The key under which a successful response is stored:
`description.split(". ")[1]`.  Every static description contains the
separator exactly once, so the Python `IndexError` branch (modelled by
the `getD` default) is unreachable on the enumeration. -/
def extractKey (description : String) : String :=
  (((splitOnChars ". ".toList description.toList).map List.asString).getD 1 "")

/-- Python dict assignment `d[k] = v` on an insertion-ordered dict
represented as an association list: overwriting keeps the original
position, a fresh key is appended. -/
def dictInsert (d : List (String × Json)) (k : String) (v : Json) : List (String × Json) :=
  if d.any (fun p => p.1 = k) then
    d.map (fun p => if p.1 = k then (k, v) else p)
  else d ++ [(k, v)]

/-- The aggregation loop of fetch-abgdd-rmf.py's `main`: for each
descriptor in order, attempt the call and store a non-`None` result
under the extracted key.  The state is the list of endpoint paths
attempted so far together with the growing result dict. -/
def abgdd_loop (net : String → NetResult) :
    List (String × String) → List String × List (String × Json) →
    List String × List (String × Json)
  | [], st => st
  | ep :: rest, (att, acc) =>
    let att' := att ++ [ep.1]
    let acc' :=
      match abgdd_call (net ep.1) with
      | some v => dictInsert acc (extractKey ep.2) v
      | none => acc
    abgdd_loop net rest (att', acc')

/-- The aggregated result dict (`all_data`) at the end of a run of
fetch-abgdd-rmf.py, as a key-ordered association list. -/
def abgdd_run (net : String → NetResult) : List (String × Json) :=
  (abgdd_loop net abgdd_endpoints ([], [])).2

/-- The result of one full run of fetch-abgdd-rmf.py's `main`.  The API
key is a hardcoded constant (never checked, never absent); every
exception a call can raise is caught inside `call_api`, and after the
loop the script unconditionally writes `all_data` as a JSON object to
the output file and returns, so the process always exits 0. -/
structure ScriptRun where
  attempts : List String
  outcome : Outcome
  file : Option Json

def abgdd_main (net : String → NetResult) : ScriptRun :=
  let st := abgdd_loop net abgdd_endpoints ([], [])
  ⟨st.1, Outcome.exit0, some (Json.obj st.2)⟩

/-! ## fetch-scb-rmf-simple.py -/

/-- Path of the AMC-list endpoint used by both SCB scripts. -/
def amcPath : String := "/FundFactsheet/fund/amc"

/-- The filter predicate of `scb_amcs`:
`'SCB' in amc.get('name_en', '').upper()`. -/
def amcPredM (amc : Json) : Option Bool := do
  let v ← jGet amc "name_en" (Json.str "")
  let u ← jUpper v
  pure (strContains u "SCB")

/-- The filter predicate of `rmf_funds`, with Python's left-to-right,
short-circuiting `or` (a crash in a later disjunct is only reached when
the earlier ones are `False`):
`'RMF' in fund.get('proj_abbr_name', '').upper()
 or 'RMF' in fund.get('proj_name_en', '').upper()
 or 'RETIREMENT' in fund.get('proj_name_en', '').upper()`. -/
def rmfPredM (fund : Json) : Option Bool := do
  let a ← jGet fund "proj_abbr_name" (Json.str "")
  let au ← jUpper a
  if strContains au "RMF" then
    pure true
  else do
    let e ← jGet fund "proj_name_en" (Json.str "")
    let eu ← jUpper e
    if strContains eu "RMF" then
      pure true
    else do
      let e2 ← jGet fund "proj_name_en" (Json.str "")
      let eu2 ← jUpper e2
      pure (strContains eu2 "RETIREMENT")

/-- The filter predicate of `active_rmf_funds`, with Python's
short-circuiting `and`:
`fund.get('fund_status') == 'RG' and fund.get('cancel_date') == '-'`. -/
def activePredM (fund : Json) : Option Bool := do
  let s ← jGet fund "fund_status" Json.null
  if jEqStr s "RG" then do
    let c ← jGet fund "cancel_date" Json.null
    pure (jEqStr c "-")
  else
    pure false

/-- The filter predicate of `scbm3_fund`:
`fund.get('proj_abbr_name') == 'SCBM3'`. -/
def scbm3PredM (fund : Json) : Option Bool := do
  let v ← jGet fund "proj_abbr_name" Json.null
  pure (jEqStr v "SCBM3")

/-- The asset display loop of fetch-scb-rmf-simple.py (Step 5): each
element must be a dict (`.get` would raise otherwise) whose
`asset_name`, when present, is a string (it is sliced with `[:40]` and
then `.ljust(40)`); `asset_seq` and `asset_ratio` pass through `str()`
and accept anything.  `false` means the loop raises. -/
def simpleDisplayAssets (assets : Json) : Bool :=
  match jIter assets with
  | none => false
  | some xs =>
    xs.all (fun x =>
      match x with
      | Json.obj kvs =>
        match jLookup kvs "asset_name" with
        | none => true
        | some (Json.str _) => true
        | some _ => false
      | _ => false)

/-- Environment of one run of fetch-scb-rmf-simple.py: the
`SEC_FUND_FACTSHEET_KEY` value (`os.getenv` with default `""`, so the
key is a plain string) and the behaviour of the network for each
endpoint path. -/
structure SimpleEnv where
  key : String
  net : String → NetResult

/-- The JSON file fetch-scb-rmf-simple.py writes at the end of a fully
successful run. -/
def simpleOutput (scb_amc : Json) (active rmf : List Json) : Json :=
  Json.obj
    [ ("amc", scb_amc),
      ("active_rmf_funds", Json.arr active),
      ("all_rmf_funds", Json.arr rmf) ]

/-- Step 5 of fetch-scb-rmf-simple.py (asset allocation of the first
active fund) and the final JSON write.  The display loop over `active`
(lines 130-139) and the SCBM3 prints only use `.get` on dicts, which
cannot raise here: every member of `active` passed `rmfPredM`, so it is
a dict. -/
def simpleStep5 (env : SimpleEnv) (scb_amc : Json) (active rmf_funds : List Json)
    (att2 : List String) : ScriptRun :=
  match active with
  | [] => ⟨att2, Outcome.exit0, some (simpleOutput scb_amc active rmf_funds)⟩
  | example_fund :: _ =>
    match jGet example_fund "proj_id" Json.null with
    | none => ⟨att2, Outcome.crashed, none⟩
    | some pid =>
      let assetP := "/FundFactsheet/fund/" ++ pyStr pid ++ "/asset"
      let att3 := att2 ++ [assetP]
      match simple_call (env.net assetP) with
      | none => ⟨att3, Outcome.exit0, some (simpleOutput scb_amc active rmf_funds)⟩
      | some assetsJson =>
        if !pyTruthy assetsJson then
          ⟨att3, Outcome.exit0, some (simpleOutput scb_amc active rmf_funds)⟩
        else if simpleDisplayAssets assetsJson then
          ⟨att3, Outcome.exit0, some (simpleOutput scb_amc active rmf_funds)⟩
        else ⟨att3, Outcome.crashed, none⟩

/-- Steps 2 onward of fetch-scb-rmf-simple.py, after an SCB AMC with a
`unique_id` was found: Step 2 (fund list fetch, truthiness gate),
Step 3 (RMF and active filters), Step 4 (SCBM3 search), then Step 5. -/
def simpleStep2 (env : SimpleEnv) (scb_amc uid : Json) : ScriptRun :=
  let fundsP := "/FundFactsheet/fund/amc/" ++ pyStr uid
  let att2 := [amcPath, fundsP]
  match simple_call (env.net fundsP) with
  | none => ⟨att2, Outcome.exit0, none⟩
  | some fundsJson =>
    if !pyTruthy fundsJson then ⟨att2, Outcome.exit0, none⟩
    else
      match pyLen fundsJson with
      | none => ⟨att2, Outcome.crashed, none⟩
      | some _ =>
        match jIter fundsJson with
        | none => ⟨att2, Outcome.crashed, none⟩
        | some fundItems =>
          match pyFilterM rmfPredM fundItems with
          | none => ⟨att2, Outcome.crashed, none⟩
          | some rmf_funds =>
            match pyFilterM activePredM rmf_funds with
            | none => ⟨att2, Outcome.crashed, none⟩
            | some active =>
              match pyFilterM scbm3PredM fundItems with
              | none => ⟨att2, Outcome.crashed, none⟩
              | some _ => simpleStep5 env scb_amc active rmf_funds att2

/-- One full run of fetch-scb-rmf-simple.py's `main`, following the
source line by line: the key gate, Step 1 (AMC list fetch, truthiness
gate, SCB filter), Step 2 (fund list fetch, truthiness gate), Step 3
(RMF and active filters), Step 4 (SCBM3 search), Step 5 (asset fetch
and display for the first active fund, if any), and the final JSON
write.  `attempts` lists the endpoint paths passed to `call_api` in
order; a `crashed` outcome marks an uncaught exception at that point of
the run. -/
def simple_main (env : SimpleEnv) : ScriptRun :=
  if env.key.isEmpty then ⟨[], Outcome.exit0, none⟩
  else
    match simple_call (env.net amcPath) with
    | none => ⟨[amcPath], Outcome.exit0, none⟩
    | some amcJson =>
      if !pyTruthy amcJson then ⟨[amcPath], Outcome.exit0, none⟩
      else
        match pyLen amcJson with
        | none => ⟨[amcPath], Outcome.crashed, none⟩
        | some _ =>
          match jIter amcJson with
          | none => ⟨[amcPath], Outcome.crashed, none⟩
          | some amcItems =>
            match pyFilterM amcPredM amcItems with
            | none => ⟨[amcPath], Outcome.crashed, none⟩
            | some scb_amcs =>
              match scb_amcs with
              | [] => ⟨[amcPath], Outcome.exit0, none⟩
              | scb_amc :: _ =>
                match jIndex scb_amc "unique_id", jIndex scb_amc "name_en",
                    jIndex scb_amc "name_th" with
                | some uid, some _, some _ => simpleStep2 env scb_amc uid
                | _, _, _ => ⟨[amcPath], Outcome.crashed, none⟩

/-! ## fetch-scb-rmf-funds.py -/

/-- The key gate of fetch-scb-rmf-funds.py: `FACTSHEET_KEY` comes from
`os.getenv` without a default, so it is absent (`None`) or a string;
`if not FACTSHEET_KEY` is true for `None` and for the empty string. -/
def keyMissing : Option String → Bool
  | none => true
  | some s => s.isEmpty

/-- The active-funds selection of fetch-scb-rmf-funds.py (lines
151-162): filter `rmf_funds` down to funds with `fund_status == 'RG'`
and `cancel_date == '-'`; when that filter comes back empty, the script
silently reassigns `active_rmf_funds = rmf_funds`, so the list used for
display and export falls back to the entire RMF-filtered list.  `none`
means the filter predicate raised. -/
def funds_active_selection (rmf_funds : List Json) : Option (List Json) :=
  (pyFilterM activePredM rmf_funds).map
    (fun act => if act.isEmpty then rmf_funds else act)

/-- The pandas asset display of fetch-scb-rmf-funds.py (Step 5, outside
any try/except): `pd.DataFrame(assets)` followed, when the frame is
non-empty, by selecting the columns `asset_seq`, `asset_name`,
`asset_ratio`.  A list of dicts builds a frame whose columns are the
union of the dicts' keys, and the selection raises `KeyError` unless
all three columns are present; any other payload makes the constructor
or the selection raise.  `false` means Step 5 raises. -/
def fundsDisplayAssets (assets : Json) : Bool :=
  match assets with
  | Json.arr [] => true
  | Json.arr xs =>
    let allDicts := xs.all (fun x =>
      match x with
      | Json.obj _ => true
      | _ => false)
    let colPool := xs.foldr (fun x acc =>
      match x with
      | Json.obj kvs => kvs.map (fun p => p.1) ++ acc
      | _ => acc) []
    allDicts && ["asset_seq", "asset_name", "asset_ratio"].all colPool.contains
  | _ => false

/-- Environment of one run of fetch-scb-rmf-funds.py.  `dailyKey`
(`SEC_FUND_DAILY_INFO_KEY`) is only ever printed in `main`:
`fetch_fund_nav`, its one guarded user, is never called. -/
structure FundsEnv where
  key : Option String
  dailyKey : Option String
  net : String → NetResult

/-- Result of one run of fetch-scb-rmf-funds.py: the endpoint paths
passed to `call_api` in order, the process outcome, and the value of
`active_rmf_funds` after the fallback of lines 159-162 (the list the
script then displays and exports), when the run got that far.  The
script writes no JSON file; its Excel export sits in a try/except that
swallows every error, so it cannot affect the outcome. -/
structure FundsRun where
  attempts : List String
  outcome : Outcome
  active_used : Option (List Json)

/-- Step 5 of fetch-scb-rmf-funds.py (asset allocation of the first
fund of `active_rmf_funds`, displayed through pandas), the Excel export
try-block (Step 6, unobservable here), and the summary prints. -/
def fundsStep5 (env : FundsEnv) (active : List Json) (att2 : List String) : FundsRun :=
  match active with
  | [] => ⟨att2, Outcome.exit0, some active⟩
  | example_fund :: _ =>
    match jGet example_fund "proj_id" Json.null with
    | none => ⟨att2, Outcome.crashed, some active⟩
    | some pid =>
      let assetP := "/FundFactsheet/fund/" ++ pyStr pid ++ "/asset"
      let att3 := att2 ++ [assetP]
      match funds_call (env.net assetP) with
      | CallOutcome.raised => ⟨att3, Outcome.crashed, some active⟩
      | CallOutcome.ret none => ⟨att3, Outcome.exit0, some active⟩
      | CallOutcome.ret (some assetsJson) =>
        if !pyTruthy assetsJson then ⟨att3, Outcome.exit0, some active⟩
        else if fundsDisplayAssets assetsJson then ⟨att3, Outcome.exit0, some active⟩
        else ⟨att3, Outcome.crashed, some active⟩

/-- Steps 2 onward of fetch-scb-rmf-funds.py, after an SCB AMC with a
`unique_id` was found: fund list fetch and truthiness gate, the RMF
filter, the active filter with its fallback, the display loop (dict
`.get` only, cannot raise), the SCBM3 search, then Step 5. -/
def fundsStep2 (env : FundsEnv) (uid : Json) : FundsRun :=
  let fundsP := "/FundFactsheet/fund/amc/" ++ pyStr uid
  let att2 := [amcPath, fundsP]
  match funds_call (env.net fundsP) with
  | CallOutcome.raised => ⟨att2, Outcome.crashed, none⟩
  | CallOutcome.ret none => ⟨att2, Outcome.exit0, none⟩
  | CallOutcome.ret (some fundsJson) =>
    if !pyTruthy fundsJson then ⟨att2, Outcome.exit0, none⟩
    else
      match pyLen fundsJson with
      | none => ⟨att2, Outcome.crashed, none⟩
      | some _ =>
        match jIter fundsJson with
        | none => ⟨att2, Outcome.crashed, none⟩
        | some fundItems =>
          match pyFilterM rmfPredM fundItems with
          | none => ⟨att2, Outcome.crashed, none⟩
          | some rmf_funds =>
            match funds_active_selection rmf_funds with
            | none => ⟨att2, Outcome.crashed, none⟩
            | some active =>
              match pyFilterM scbm3PredM fundItems with
              | none => ⟨att2, Outcome.crashed, some active⟩
              | some _ => fundsStep5 env active att2

/-- One full run of fetch-scb-rmf-funds.py's `main`: the key gate, the
AMC list fetch with its truthiness gate and SCB filter, then Steps 2
onward.  A `raised` call outcome propagates out of `main` (nothing
catches it), crashing the process. -/
def funds_main (env : FundsEnv) : FundsRun :=
  if keyMissing env.key then ⟨[], Outcome.exit0, none⟩
  else
    match funds_call (env.net amcPath) with
    | CallOutcome.raised => ⟨[amcPath], Outcome.crashed, none⟩
    | CallOutcome.ret none => ⟨[amcPath], Outcome.exit0, none⟩
    | CallOutcome.ret (some amcJson) =>
      if !pyTruthy amcJson then ⟨[amcPath], Outcome.exit0, none⟩
      else
        match pyLen amcJson with
        | none => ⟨[amcPath], Outcome.crashed, none⟩
        | some _ =>
          match jIter amcJson with
          | none => ⟨[amcPath], Outcome.crashed, none⟩
          | some amcItems =>
            match pyFilterM amcPredM amcItems with
            | none => ⟨[amcPath], Outcome.crashed, none⟩
            | some scb_amcs =>
              match scb_amcs with
              | [] => ⟨[amcPath], Outcome.exit0, none⟩
              | scb_amc :: _ =>
                match jIndex scb_amc "unique_id", jIndex scb_amc "name_en",
                    jIndex scb_amc "name_th" with
                | some uid, some _, some _ => fundsStep2 env uid
                | _, _, _ => ⟨[amcPath], Outcome.crashed, none⟩

/-! ## Spec-side predicates and shape conditions -/

/-- The string content of field `k` of a fund record, with the empty
string for an absent or non-string field (the effective value of
`fund.get(k, '')` on the data the filters accept). -/
def strField (j : Json) (k : String) : String :=
  match j with
  | Json.obj kvs =>
    match jLookup kvs k with
    | some (Json.str s) => s
    | _ => ""
  | _ => ""

/-- The value of field `k` of a record, `null` (Python `None`) when
absent: the effective value of `fund.get(k)`. -/
def fieldD (j : Json) (k : String) : Json :=
  match j with
  | Json.obj kvs => (jLookup kvs k).getD Json.null
  | _ => Json.null

/-- The RMF membership condition, stated directly: `RMF` occurs
case-insensitively in the abbreviated project name or in the English
project name, or `RETIREMENT` occurs case-insensitively in the English
project name.  The Thai name plays no role. -/
def rmfNamePred (j : Json) : Bool :=
  strContains (upperStr (strField j "proj_abbr_name")) "RMF" ||
  strContains (upperStr (strField j "proj_name_en")) "RMF" ||
  strContains (upperStr (strField j "proj_name_en")) "RETIREMENT"

/-- The active-fund condition, stated directly: `fund_status` is the
string `RG` and `cancel_date` is the string `-`. -/
def activeSpecPred (j : Json) : Bool :=
  jEqStr (fieldD j "fund_status") "RG" && jEqStr (fieldD j "cancel_date") "-"

/-- Whether a lookup result is a string or absent (so that Python can
call `.upper()` on `kvs.get(k, '')` without raising). -/
def strOrAbsent (kvs : List (String × Json)) (k : String) : Bool :=
  match jLookup kvs k with
  | none => true
  | some (Json.str _) => true
  | some _ => false

/-- A fund record shaped as the RMF filter expects: a dict whose
`proj_abbr_name` and `proj_name_en`, when present, are strings. -/
def fundShape (j : Json) : Bool :=
  match j with
  | Json.obj kvs =>
    strOrAbsent kvs "proj_abbr_name" && strOrAbsent kvs "proj_name_en"
  | _ => false

/-! ## Concrete records and environments used by the theorems -/

/-- The entry the aggregation loop stores for one descriptor: the key
extracted from the description together with the decoded response, when
the call returned one. -/
def abgddEntry (net : String → NetResult) (ep : String × String) :
    Option (String × Json) :=
  (abgdd_call (net ep.1)).map (fun v => (extractKey ep.2, v))

/-- Whether a JSON value is a dict. -/
def isObj : Json → Bool
  | Json.obj _ => true
  | _ => false

/-- A network in which every request fails at the connection level. -/
def downNet : String → NetResult := fun _ => NetResult.netError "connection refused"

/-- An SCB AMC record shaped like the AMC-list endpoint returns it. -/
def scbAmcRecord : Json :=
  Json.obj
    [ ("name_en", Json.str "SCB ASSET MANAGEMENT CO.,LTD."),
      ("name_th", Json.str "SCB"),
      ("unique_id", Json.str "SCBAM") ]

/-- The fund-list path the scripts derive from `scbAmcRecord`. -/
def scbFundsPath : String := "/FundFactsheet/fund/amc/SCBAM"

/-- A network in which only the AMC-list call succeeds (returning a
one-element AMC list) and every other request fails. -/
def amcOnlyNet : String → NetResult := fun p =>
  if p = amcPath then
    NetResult.response ⟨200, "amc body", some (Json.arr [scbAmcRecord])⟩
  else NetResult.netError "connection refused"

/-- A fund record without the substring `RMF` in any name field that
the RMF filter nevertheless keeps, because its English name contains
`RETIREMENT`. -/
def retirementFund : Json :=
  Json.obj
    [ ("proj_abbr_name", Json.str "SCBRF"),
      ("proj_name_en", Json.str "SCB Retirement Fund"),
      ("proj_name_th", Json.str "X") ]

/-- Environment for fetch-scb-rmf-simple.py in which the AMC call
succeeds with decoded value `v` and everything else fails. -/
def falsySimpleEnv (v : Json) : SimpleEnv :=
  ⟨"key123", fun p =>
    if p = amcPath then NetResult.response ⟨200, "amc body", some v⟩
    else NetResult.netError "connection refused"⟩

/-- Environment for fetch-scb-rmf-simple.py in which the AMC call
returns a one-element AMC list and the fund-list call succeeds with
decoded value `w`. -/
def falsyFundsListEnv (w : Json) : SimpleEnv :=
  ⟨"key123", fun p =>
    if p = amcPath then NetResult.response ⟨200, "amc body", some (Json.arr [scbAmcRecord])⟩
    else if p = scbFundsPath then NetResult.response ⟨200, "funds body", some w⟩
    else NetResult.netError "connection refused"⟩

/-- Environment for fetch-scb-rmf-funds.py in which the AMC call
succeeds with decoded value `v` and everything else fails. -/
def falsyFundsEnv (v : Json) : FundsEnv :=
  ⟨some "key123", none, fun p =>
    if p = amcPath then NetResult.response ⟨200, "amc body", some v⟩
    else NetResult.netError "connection refused"⟩

/-- An RMF fund record that is not active (`fund_status` is not `RG`
and it has a cancel date). -/
def inactiveRmfFund : Json :=
  Json.obj
    [ ("proj_abbr_name", Json.str "SCBRM1"),
      ("proj_name_en", Json.str "SCB RMF ONE"),
      ("fund_status", Json.str "LI"),
      ("cancel_date", Json.str "2020-01-01") ]

/-! ## Generic lemmas -/

/-- A comprehension whose predicate is defined on every element of the
list is the corresponding pure filter. -/
theorem pyFilterM_eq_filter (p : Json → Option Bool) (q : Json → Bool)
    (xs : List Json) (h : ∀ x ∈ xs, p x = some (q x)) :
    pyFilterM p xs = some (xs.filter q) := by
  induction xs with
  | nil => rfl
  | cons x rest ih =>
    have hx : p x = some (q x) := h x (List.mem_cons_self x rest)
    have hrest : pyFilterM p rest = some (rest.filter q) :=
      ih (fun y hy => h y (List.mem_cons_of_mem x hy))
    cases hq : q x <;>
      simp [pyFilterM, hx, hrest, List.filter_cons, hq]

/-- On a dict, the RMF filter predicate of the SCB scripts computes the
direct RMF membership condition, provided the two name fields are
strings when present. -/
theorem rmfPredM_of_shape (j : Json) (h : fundShape j = true) :
    rmfPredM j = some (rmfNamePred j) := by
  cases j with
  | obj kvs =>
    have ha : strOrAbsent kvs "proj_abbr_name" = true := by
      simp [fundShape] at h; exact h.1
    have he : strOrAbsent kvs "proj_name_en" = true := by
      simp [fundShape] at h; exact h.2
    unfold strOrAbsent at ha he
    unfold rmfPredM rmfNamePred strField jGet jUpper
    cases hla : jLookup kvs "proj_abbr_name" with
    | none =>
      cases hle : jLookup kvs "proj_name_en" with
      | none =>
        simp [hla, hle]
        cases h1 : strContains (upperStr "") "RMF" <;>
          cases h2 : strContains (upperStr "") "RETIREMENT" <;> simp [h1, h2]
      | some ve =>
        rw [hle] at he
        cases ve <;> simp_all
        cases h1 : strContains (upperStr "") "RMF" <;> simp [h1]
        rename_i s
        cases h2 : strContains (upperStr s) "RMF" <;> simp [h2]
    | some va =>
      rw [hla] at ha
      cases va <;> simp_all
      rename_i sa
      cases h0 : strContains (upperStr sa) "RMF" <;> simp [h0]
      cases hle : jLookup kvs "proj_name_en" with
      | none =>
        simp [hle]
        cases h1 : strContains (upperStr "") "RMF" <;> simp [h1]
      | some ve =>
        rw [hle] at he
        cases ve <;> simp_all
        rename_i se
        cases h1 : strContains (upperStr se) "RMF" <;> simp [h1]
  | null => simp [fundShape] at h
  | bool b => simp [fundShape] at h
  | num n => simp [fundShape] at h
  | str s => simp [fundShape] at h
  | arr xs => simp [fundShape] at h

/-- On a dict, the active-fund filter predicate computes the direct
active-fund condition (field comparisons never raise). -/
theorem activePredM_obj (kvs : List (String × Json)) :
    activePredM (Json.obj kvs) = some (activeSpecPred (Json.obj kvs)) := by
  unfold activePredM activeSpecPred fieldD jGet
  cases h : jEqStr ((jLookup kvs "fund_status").getD Json.null) "RG" <;> simp [h]

/-- Dict assignment with a key fresh for the dict is an append. -/
theorem dictInsert_fresh (d : List (String × Json)) (k : String) (v : Json)
    (h : ∀ p ∈ d, p.1 ≠ k) : dictInsert d k v = d ++ [(k, v)] := by
  unfold dictInsert
  rw [if_neg]
  simp only [List.any_eq_true, decide_eq_true_eq, not_exists]
  rintro p ⟨hp, hpk⟩
  exact h p hp hpk

/-- The aggregation loop, run from any state whose dict is disjoint
from the keys still to come, attempts every remaining descriptor in
order and appends exactly the entries of the calls that returned a
value. -/
theorem abgdd_loop_spec (net : String → NetResult) :
    ∀ (eps : List (String × String)) (att : List String) (acc : List (String × Json)),
      (∀ ep ∈ eps, ∀ p ∈ acc, p.1 ≠ extractKey ep.2) →
      (eps.map (fun ep => extractKey ep.2)).Nodup →
      abgdd_loop net eps (att, acc) =
        (att ++ eps.map (fun ep => ep.1), acc ++ eps.filterMap (abgddEntry net)) := by
  intro eps
  induction eps with
  | nil => intro att acc _ _; simp [abgdd_loop]
  | cons ep rest ih =>
    intro att acc hfresh hnodup
    have hnodup' : (rest.map (fun ep => extractKey ep.2)).Nodup :=
      (List.nodup_cons.mp hnodup).2
    have hkey : extractKey ep.2 ∉ rest.map (fun ep => extractKey ep.2) :=
      (List.nodup_cons.mp hnodup).1
    cases hc : abgdd_call (net ep.1) with
    | none =>
      have := ih (att ++ [ep.1]) acc
        (fun ep' hep' => hfresh ep' (List.mem_cons_of_mem ep hep')) hnodup'
      simp [abgdd_loop, hc, this, abgddEntry, List.filterMap_cons]
    | some v =>
      have hins : dictInsert acc (extractKey ep.2) v = acc ++ [(extractKey ep.2, v)] :=
        dictInsert_fresh acc (extractKey ep.2) v
          (fun p hp => hfresh ep (List.mem_cons_self ep rest) p hp)
      have hfresh' : ∀ ep' ∈ rest, ∀ p ∈ acc ++ [(extractKey ep.2, v)],
          p.1 ≠ extractKey ep'.2 := by
        intro ep' hep' p hp
        rcases List.mem_append.mp hp with hpa | hpe
        · exact hfresh ep' (List.mem_cons_of_mem ep hep') p hpa
        · have : p = (extractKey ep.2, v) := by simpa using hpe
          subst this
          intro hcontra
          apply hkey
          have hc2 : extractKey ep.2 = extractKey ep'.2 := hcontra
          rw [hc2]
          exact List.mem_map_of_mem (fun ep => extractKey ep.2) hep'
      have := ih (att ++ [ep.1]) (acc ++ [(extractKey ep.2, v)]) hfresh' hnodup'
      simp [abgdd_loop, hc, hins, this, abgddEntry, List.filterMap_cons]

/-- The keys of the aggregated entries are the extracted keys of the
descriptors whose calls returned a value, in enumeration order. -/
theorem filterMap_entry_keys (net : String → NetResult) :
    ∀ eps : List (String × String),
      (eps.filterMap (abgddEntry net)).map Prod.fst =
        (eps.filter (fun ep => (abgdd_call (net ep.1)).isSome)).map
          (fun ep => extractKey ep.2) := by
  intro eps
  induction eps with
  | nil => rfl
  | cons ep rest ih =>
    cases hc : abgdd_call (net ep.1) <;>
      simp [abgddEntry, List.filterMap_cons, List.filter_cons, hc, ih]

/-- The 18 extracted keys of the static enumeration are pairwise
distinct. -/
theorem abgdd_keys_nodup :
    (abgdd_endpoints.map (fun ep => extractKey ep.2)).Nodup := by decide

/-- The aggregated dict of a run is exactly the entries of the
successful calls, in enumeration order. -/
theorem abgdd_run_eq (net : String → NetResult) :
    abgdd_run net = abgdd_endpoints.filterMap (abgddEntry net) := by
  have := abgdd_loop_spec net abgdd_endpoints [] []
    (fun _ _ p hp => absurd hp (List.not_mem_nil p)) abgdd_keys_nodup
  simp [abgdd_run, this]

/-- Every run of fetch-abgdd-rmf.py attempts all 18 endpoints in
order. -/
theorem abgdd_attempts_eq (net : String → NetResult) :
    (abgdd_main net).attempts = abgdd_endpoints.map (fun ep => ep.1) := by
  have := abgdd_loop_spec net abgdd_endpoints [] []
    (fun _ _ p hp => absurd hp (List.not_mem_nil p)) abgdd_keys_nodup
  simp [abgdd_main, this]

/-- On a dict, the active-fund filter predicate computes the direct
active-fund condition, in `isObj` form. -/
theorem activePredM_of_obj (j : Json) (h : isObj j = true) :
    activePredM j = some (activeSpecPred j) := by
  cases j with
  | obj kvs => exact activePredM_obj kvs
  | null => simp [isObj] at h
  | bool b => simp [isObj] at h
  | num n => simp [isObj] at h
  | str s => simp [isObj] at h
  | arr xs => simp [isObj] at h

/-- Step 5 of fetch-scb-rmf-simple.py keeps every attempt already in
the attempt list it is given. -/
theorem simpleStep5_attempts_mem (env : SimpleEnv) (scb_amc : Json)
    (active rmf_funds : List Json) (att2 : List String) (h : amcPath ∈ att2) :
    amcPath ∈ (simpleStep5 env scb_amc active rmf_funds att2).attempts := by
  unfold simpleStep5
  cases active with
  | nil => simpa using h
  | cons ex rest =>
    cases hg : jGet ex "proj_id" Json.null with
    | none => simp [hg, h]
    | some pid =>
      cases hc : simple_call (env.net ("/FundFactsheet/fund/" ++ pyStr pid ++ "/asset")) with
      | none => simp [hg, hc, h]
      | some aj =>
        cases ht : pyTruthy aj with
        | false => simp [hg, hc, ht, h]
        | true =>
          cases hd : simpleDisplayAssets aj with
          | false => simp [hg, hc, ht, hd, h]
          | true => simp [hg, hc, ht, hd, h]

/-- Step 2 of fetch-scb-rmf-simple.py always has the AMC call among its
attempts. -/
theorem simpleStep2_attempts_mem (env : SimpleEnv) (scb_amc uid : Json) :
    amcPath ∈ (simpleStep2 env scb_amc uid).attempts := by
  unfold simpleStep2
  cases hc : simple_call (env.net ("/FundFactsheet/fund/amc/" ++ pyStr uid)) with
  | none => simp [hc]
  | some fundsJson =>
    cases ht : pyTruthy fundsJson with
    | false => simp [hc, ht]
    | true =>
      cases hl : pyLen fundsJson with
      | none => simp [hc, ht, hl]
      | some n =>
        cases hi : jIter fundsJson with
        | none => simp [hc, ht, hl, hi]
        | some items =>
          cases hr : pyFilterM rmfPredM items with
          | none => simp [hc, ht, hl, hi, hr]
          | some rmf =>
            cases ha : pyFilterM activePredM rmf with
            | none => simp [hc, ht, hl, hi, hr, ha]
            | some act =>
              cases hs : pyFilterM scbm3PredM items with
              | none => simp [hc, ht, hl, hi, hr, ha, hs]
              | some z =>
                simp only [hc, ht, hl, hi, hr, ha, hs]
                simp only [Bool.not_true]
                rw [if_neg (by simp)]
                exact simpleStep5_attempts_mem _ _ _ _ _ (by simp)

/-- With a non-empty key, a run of fetch-scb-rmf-simple.py attempts the
AMC endpoint. -/
theorem simple_main_first_attempt (env : SimpleEnv) (h : env.key.isEmpty = false) :
    amcPath ∈ (simple_main env).attempts := by
  unfold simple_main
  rw [if_neg (by simp [h])]
  cases hc : simple_call (env.net amcPath) with
  | none => simp [hc]
  | some amcJson =>
    cases ht : pyTruthy amcJson with
    | false => simp [hc, ht]
    | true =>
      cases hl : pyLen amcJson with
      | none => simp [hc, ht, hl]
      | some n =>
        cases hi : jIter amcJson with
        | none => simp [hc, ht, hl, hi]
        | some items =>
          cases hf : pyFilterM amcPredM items with
          | none => simp [hc, ht, hl, hi, hf]
          | some scbs =>
            cases scbs with
            | nil => simp [hc, ht, hl, hi, hf]
            | cons scb_amc restA =>
              cases h1 : jIndex scb_amc "unique_id" with
              | none => simp [hc, ht, hl, hi, hf, h1]
              | some uid =>
                cases h2 : jIndex scb_amc "name_en" with
                | none => simp [hc, ht, hl, hi, hf, h1, h2]
                | some ne2 =>
                  cases h3 : jIndex scb_amc "name_th" with
                  | none => simp [hc, ht, hl, hi, hf, h1, h2, h3]
                  | some nt =>
                    simp only [hc, ht, hl, hi, hf, h1, h2, h3]
                    simp only [Bool.not_true]
                    rw [if_neg (by simp)]
                    exact simpleStep2_attempts_mem _ _ _

/-- With an empty key, fetch-scb-rmf-simple.py returns before any
call. -/
theorem simple_main_no_key (env : SimpleEnv) (h : env.key.isEmpty = true) :
    simple_main env = ⟨[], Outcome.exit0, none⟩ := by
  unfold simple_main
  rw [if_pos (by simp [h])]

/-- Step 5 of fetch-scb-rmf-funds.py keeps every attempt already in the
attempt list it is given. -/
theorem fundsStep5_attempts_mem (env : FundsEnv) (active : List Json)
    (att2 : List String) (h : amcPath ∈ att2) :
    amcPath ∈ (fundsStep5 env active att2).attempts := by
  unfold fundsStep5
  cases active with
  | nil => simpa using h
  | cons ex rest =>
    cases hg : jGet ex "proj_id" Json.null with
    | none => simp [hg, h]
    | some pid =>
      cases hc : funds_call (env.net ("/FundFactsheet/fund/" ++ pyStr pid ++ "/asset")) with
      | raised => simp [hg, hc, h]
      | ret o =>
        cases o with
        | none => simp [hg, hc, h]
        | some aj =>
          cases ht : pyTruthy aj with
          | false => simp [hg, hc, ht, h]
          | true =>
            cases hd : fundsDisplayAssets aj with
            | false => simp [hg, hc, ht, hd, h]
            | true => simp [hg, hc, ht, hd, h]

/-- Step 2 of fetch-scb-rmf-funds.py always has the AMC call among its
attempts. -/
theorem fundsStep2_attempts_mem (env : FundsEnv) (uid : Json) :
    amcPath ∈ (fundsStep2 env uid).attempts := by
  unfold fundsStep2
  cases hc : funds_call (env.net ("/FundFactsheet/fund/amc/" ++ pyStr uid)) with
  | raised => simp [hc]
  | ret o =>
    cases o with
    | none => simp [hc]
    | some fundsJson =>
      cases ht : pyTruthy fundsJson with
      | false => simp [hc, ht]
      | true =>
        cases hl : pyLen fundsJson with
        | none => simp [hc, ht, hl]
        | some n =>
          cases hi : jIter fundsJson with
          | none => simp [hc, ht, hl, hi]
          | some items =>
            cases hr : pyFilterM rmfPredM items with
            | none => simp [hc, ht, hl, hi, hr]
            | some rmf =>
              cases ha : funds_active_selection rmf with
              | none => simp [hc, ht, hl, hi, hr, ha]
              | some act =>
                cases hs : pyFilterM scbm3PredM items with
                | none => simp [hc, ht, hl, hi, hr, ha, hs]
                | some z =>
                  simp only [hc, ht, hl, hi, hr, ha, hs]
                  simp only [Bool.not_true]
                  rw [if_neg (by simp)]
                  exact fundsStep5_attempts_mem _ _ _ (by simp)

/-- With a present, non-empty key, a run of fetch-scb-rmf-funds.py
attempts the AMC endpoint. -/
theorem funds_main_first_attempt (env : FundsEnv) (h : keyMissing env.key = false) :
    amcPath ∈ (funds_main env).attempts := by
  unfold funds_main
  rw [if_neg (by simp [h])]
  cases hc : funds_call (env.net amcPath) with
  | raised => simp [hc]
  | ret o =>
    cases o with
    | none => simp [hc]
    | some amcJson =>
      cases ht : pyTruthy amcJson with
      | false => simp [hc, ht]
      | true =>
        cases hl : pyLen amcJson with
        | none => simp [hc, ht, hl]
        | some n =>
          cases hi : jIter amcJson with
          | none => simp [hc, ht, hl, hi]
          | some items =>
            cases hf : pyFilterM amcPredM items with
            | none => simp [hc, ht, hl, hi, hf]
            | some scbs =>
              cases scbs with
              | nil => simp [hc, ht, hl, hi, hf]
              | cons scb_amc restA =>
                cases h1 : jIndex scb_amc "unique_id" with
                | none => simp [hc, ht, hl, hi, hf, h1]
                | some uid =>
                  cases h2 : jIndex scb_amc "name_en" with
                  | none => simp [hc, ht, hl, hi, hf, h1, h2]
                  | some ne2 =>
                    cases h3 : jIndex scb_amc "name_th" with
                    | none => simp [hc, ht, hl, hi, hf, h1, h2, h3]
                    | some nt =>
                      simp only [hc, ht, hl, hi, hf, h1, h2, h3]
                      simp only [Bool.not_true]
                      rw [if_neg (by simp)]
                      exact fundsStep2_attempts_mem _ _

/-- With a missing or empty key, fetch-scb-rmf-funds.py returns before
any call. -/
theorem funds_main_no_key (env : FundsEnv) (h : keyMissing env.key = true) :
    funds_main env = ⟨[], Outcome.exit0, none⟩ := by
  unfold funds_main
  rw [if_pos (by simp [h])]

/-! ## Claim theorems -/

/-- `Json.isNull` detects exactly the `null` value. -/
theorem Json.isNull_iff (v : Json) : v.isNull = true ↔ v = Json.null := by
  cases v <;> simp [Json.isNull]

/-! ## Claim C1 -/

/-- Claim C1, counterexample.  The claim says every call operation
returns the decoded JSON value exactly when the status is in 200-299
and the body is valid JSON.  In fetch-scb-rmf-funds.py, a response with
status 201 and the valid JSON body `[]` (whose decoded value is the
empty array, not the `None` sentinel) makes `call_api` return `None`:
only status 200 is accepted there. -/
theorem C1_counterexample :
    funds_call (NetResult.response ⟨201, "[]", some (Json.arr [])⟩) = CallOutcome.ret none
  ∧ pyOfJson (Json.arr []) = some (Json.arr []) :=
  ⟨rfl, rfl⟩

/-- Claim C1 (amended): the success condition differs per script.
fetch-scb-rmf-simple.py returns the decoded value exactly for statuses
200-299 with a valid JSON body; fetch-scb-rmf-funds.py only for status
exactly 200, and an invalid JSON body at status 200 raises an uncaught
exception there; fetch-abgdd-rmf.py returns the decoded value for any
status outside 400-599 with a valid JSON body.  Failures are signalled
by returning the Python `None` sentinel (with diagnostics printed), not
by a typed error value, except the uncaught exceptions of
fetch-scb-rmf-funds.py (network errors and decode errors at 200). -/
theorem C1_amended_call_contract (r : HttpResponse) (v : Json) (hv : v.isNull = false) :
    (simple_call (NetResult.response r) = some v ↔
      (200 ≤ r.status ∧ r.status < 300) ∧ r.parsed = some v)
  ∧ (abgdd_call (NetResult.response r) = some v ↔
      ¬(400 ≤ r.status ∧ r.status < 600) ∧ r.parsed = some v)
  ∧ (funds_call (NetResult.response r) = CallOutcome.ret (some v) ↔
      r.status = 200 ∧ r.parsed = some v)
  ∧ (funds_call (NetResult.response r) = CallOutcome.raised ↔
      r.status = 200 ∧ r.parsed = none)
  ∧ (∀ m, simple_call (NetResult.netError m) = none)
  ∧ (∀ m, abgdd_call (NetResult.netError m) = none)
  ∧ (∀ m, funds_call (NetResult.netError m) = CallOutcome.raised) := by
  have hvne : v ≠ Json.null := by
    intro hcon
    rw [hcon] at hv
    simp [Json.isNull] at hv
  refine ⟨?_, ?_, ?_, ?_, fun m => rfl, fun m => rfl, fun m => rfl⟩
  · unfold simple_call
    by_cases hs : 200 ≤ r.status ∧ r.status < 300
    · cases hp : r.parsed with
      | none => simp [hs, hp]
      | some w =>
        cases hw : w.isNull with
        | true =>
          have hwn : w = Json.null := (Json.isNull_iff w).mp hw
          subst hwn
          simp [hs, hp, pyOfJson, Json.isNull, Ne.symm hvne]
        | false => simp [hs, hp, pyOfJson, hw]
    · simp [hs]
  · unfold abgdd_call
    by_cases hs : 400 ≤ r.status ∧ r.status < 600
    · simp [hs]
    · cases hp : r.parsed with
      | none => simp [hs, hp]
      | some w =>
        cases hw : w.isNull with
        | true =>
          have hwn : w = Json.null := (Json.isNull_iff w).mp hw
          subst hwn
          simp [hs, hp, pyOfJson, Json.isNull, Ne.symm hvne]
        | false => simp [hs, hp, pyOfJson, hw]
  · unfold funds_call
    by_cases hs : r.status = 200
    · cases hp : r.parsed with
      | none => simp [hs, hp]
      | some w =>
        cases hw : w.isNull with
        | true =>
          have hwn : w = Json.null := (Json.isNull_iff w).mp hw
          subst hwn
          simp [hs, hp, pyOfJson, Json.isNull, Ne.symm hvne]
        | false => simp [hs, hp, pyOfJson, hw]
    · simp [hs]
  · unfold funds_call
    by_cases hs : r.status = 200
    · cases hp : r.parsed with
      | none => simp [hs, hp]
      | some w => simp [hs, hp]
    · simp [hs]

/-- Claim C1, witness for the amended contract at a concrete 2xx
response. -/
theorem C1_amended_witness :
    simple_call (NetResult.response ⟨200, "[1]", some (Json.arr [Json.num 1])⟩)
      = some (Json.arr [Json.num 1]) :=
  ((C1_amended_call_contract ⟨200, "[1]", some (Json.arr [Json.num 1])⟩
      (Json.arr [Json.num 1]) rfl).1).mpr ⟨⟨by decide, by decide⟩, rfl⟩

/-! ## Claim C2 -/

/-- Claim C2, counterexample.  The claim says that with the API key
present, the failure of an individual endpoint call never aborts the
remaining calls.  In fetch-scb-rmf-simple.py with a non-empty key, a
failed AMC-list call ends the run after that single attempt, whereas
the same run with a successful AMC-list call goes on to attempt the
fund-list endpoint: the failure aborted a call that was otherwise
next. -/
theorem C2_counterexample :
    "key123".isEmpty = false
  ∧ (simple_main ⟨"key123", downNet⟩).attempts = [amcPath]
  ∧ (simple_main ⟨"key123", amcOnlyNet⟩).attempts = [amcPath, scbFundsPath] :=
  ⟨rfl, rfl, rfl⟩

/-- Claim C2 (amended): only fetch-abgdd-rmf.py has continue-on-error
semantics over its endpoint enumeration - every run attempts all 18
descriptors in order, whatever the individual outcomes.  In the two SCB
scripts, a missing (or empty) API key ends the run before any call, and
with a key present the first (AMC) endpoint is always attempted, but a
failed step aborts the calls that would have followed it. -/
theorem C2_amended_run_gates :
    (∀ net : String → NetResult,
      (abgdd_main net).attempts = abgdd_endpoints.map (fun ep => ep.1))
  ∧ (∀ env : SimpleEnv, env.key.isEmpty = true → (simple_main env).attempts = [])
  ∧ (∀ env : SimpleEnv, env.key.isEmpty = false → amcPath ∈ (simple_main env).attempts)
  ∧ (∀ env : FundsEnv, keyMissing env.key = true → (funds_main env).attempts = [])
  ∧ (∀ env : FundsEnv, keyMissing env.key = false → amcPath ∈ (funds_main env).attempts) := by
  refine ⟨abgdd_attempts_eq, ?_, simple_main_first_attempt, ?_, funds_main_first_attempt⟩
  · intro env h
    rw [simple_main_no_key env h]
  · intro env h
    rw [funds_main_no_key env h]

/-- Claim C2, witness for the amended statement at concrete
environments. -/
theorem C2_amended_witness :
    (abgdd_main downNet).attempts = abgdd_endpoints.map (fun ep => ep.1)
  ∧ (simple_main ⟨"", downNet⟩).attempts = []
  ∧ amcPath ∈ (simple_main ⟨"key123", downNet⟩).attempts
  ∧ (funds_main ⟨none, none, downNet⟩).attempts = []
  ∧ amcPath ∈ (funds_main ⟨some "key123", none, downNet⟩).attempts :=
  ⟨C2_amended_run_gates.1 downNet,
   C2_amended_run_gates.2.1 ⟨"", downNet⟩ rfl,
   C2_amended_run_gates.2.2.1 ⟨"key123", downNet⟩ rfl,
   C2_amended_run_gates.2.2.2.1 ⟨none, none, downNet⟩ rfl,
   C2_amended_run_gates.2.2.2.2 ⟨some "key123", none, downNet⟩ rfl⟩

/-! ## Claim C3 -/

/-- Claim C3: in fetch-abgdd-rmf.py, the aggregated result dict is
exactly one entry per descriptor whose call returned a value (the
script's notion of a successful call), keyed by the label extracted
from the description, with no other entries: the dict equals the
enumeration-ordered list of successful entries, the key of a descriptor
occurs once when its call succeeded and not at all when it failed, and
every entry comes from some successful descriptor. -/
theorem C3_one_entry_per_success (net : String → NetResult) :
    abgdd_run net = abgdd_endpoints.filterMap (abgddEntry net)
  ∧ (∀ ep ∈ abgdd_endpoints,
      ((abgdd_run net).map Prod.fst).count (extractKey ep.2)
        = if (abgdd_call (net ep.1)).isSome then 1 else 0)
  ∧ ∀ q ∈ abgdd_run net, ∃ ep, ep ∈ abgdd_endpoints ∧
      q.1 = extractKey ep.2 ∧ abgdd_call (net ep.1) = some q.2 := by
  have hrun := abgdd_run_eq net
  refine ⟨hrun, ?_, ?_⟩
  · intro ep hep
    rw [hrun, filterMap_entry_keys]
    have hsub : ((abgdd_endpoints.filter
          (fun e => (abgdd_call (net e.1)).isSome)).map
          (fun e => extractKey e.2)).Sublist
        (abgdd_endpoints.map (fun e => extractKey e.2)) :=
      (List.filter_sublist _).map _
    have hnd := List.Nodup.sublist hsub abgdd_keys_nodup
    rw [List.count_eq_of_nodup hnd]
    by_cases hsucc : (abgdd_call (net ep.1)).isSome
    · rw [if_pos hsucc, if_pos]
      exact List.mem_map_of_mem _ (List.mem_filter.mpr ⟨hep, by simpa using hsucc⟩)
    · rw [if_neg hsucc, if_neg]
      intro hm
      rcases List.mem_map.mp hm with ⟨e, he, heq⟩
      have he1 : e ∈ abgdd_endpoints := (List.mem_filter.mp he).1
      have he2 : (abgdd_call (net e.1)).isSome = true := by
        simpa using (List.mem_filter.mp he).2
      have hee : e = ep := List.inj_on_of_nodup_map abgdd_keys_nodup he1 hep heq
      rw [hee] at he2
      exact hsucc he2
  · intro q hq
    rw [hrun] at hq
    rcases List.mem_filterMap.mp hq with ⟨ep, hep, hent⟩
    rcases Option.map_eq_some'.mp hent with ⟨w, hw, hpair⟩
    exact ⟨ep, hep, by rw [← hpair], by rw [← hpair]; exact hw⟩

/-- Claim C3, witness at a concrete run in which every call fails:
each descriptor contributes zero entries. -/
theorem C3_witness :
    ((abgdd_run downNet).map Prod.fst).count
        (extractKey ("/fund/M0570_2565/specification", "1. Fund Specification").2)
      = if (abgdd_call (downNet "/fund/M0570_2565/specification")).isSome then 1 else 0 :=
  (C3_one_entry_per_success downNet).2.1
    ("/fund/M0570_2565/specification", "1. Fund Specification") (by decide)

/-! ## Claim C5 -/

/-- Claim C5, counterexample.  The claim says a run with zero
successful calls still writes the output file with an empty JSON
object.  In fetch-scb-rmf-simple.py, a run with a present key in which
every call fails attempts the AMC endpoint, gets nothing, and returns
before ever reaching the file write: no output file is produced. -/
theorem C5_counterexample :
    (simple_main ⟨"key123", downNet⟩).file = none
  ∧ (simple_main ⟨"key123", downNet⟩).attempts ≠ [] :=
  ⟨rfl, by decide⟩

/-- Claim C5 (amended): in fetch-abgdd-rmf.py a run with zero
successful calls has an empty aggregated dict and still writes it as an
empty JSON object; in fetch-scb-rmf-simple.py such a run writes no
output file at all. -/
theorem C5_amended_zero_success :
    (∀ net : String → NetResult,
      (∀ ep ∈ abgdd_endpoints, abgdd_call (net ep.1) = none) →
      abgdd_run net = [] ∧ (abgdd_main net).file = some (Json.obj []))
  ∧ (∀ env : SimpleEnv, (∀ p, simple_call (env.net p) = none) →
      (simple_main env).file = none) := by
  constructor
  · intro net h
    have hrun : abgdd_run net = [] := by
      rw [abgdd_run_eq]
      rw [List.filterMap_eq_nil_iff]
      intro ep hep
      simp [abgddEntry, h ep hep]
    refine ⟨hrun, ?_⟩
    have hfile : (abgdd_main net).file = some (Json.obj (abgdd_run net)) := rfl
    rw [hfile, hrun]
  · intro env h
    by_cases hk : env.key.isEmpty
    · rw [simple_main_no_key env hk]
    · unfold simple_main
      rw [if_neg (by simp [hk])]
      simp [h amcPath]

/-- Claim C5, witness for the amended statement on the all-failing
network. -/
theorem C5_amended_witness :
    abgdd_run downNet = []
  ∧ (abgdd_main downNet).file = some (Json.obj [])
  ∧ (simple_main ⟨"key123", downNet⟩).file = none :=
  ⟨(C5_amended_zero_success.1 downNet (fun _ _ => rfl)).1,
   (C5_amended_zero_success.1 downNet (fun _ _ => rfl)).2,
   C5_amended_zero_success.2 ⟨"key123", downNet⟩ (fun _ => rfl)⟩

/-! ## Claim C6 -/

/-- Claim C6: fetch-abgdd-rmf.py always writes the aggregated dict as a
JSON object, and its keys appear in exactly the order in which their
descriptors appear in the static enumeration, restricted to the
descriptors whose calls returned a value. -/
theorem C6_output_key_order (net : String → NetResult) :
    (abgdd_main net).file = some (Json.obj (abgdd_run net))
  ∧ (abgdd_run net).map Prod.fst
      = (abgdd_endpoints.filter (fun ep => (abgdd_call (net ep.1)).isSome)).map
          (fun ep => extractKey ep.2) := by
  refine ⟨rfl, ?_⟩
  rw [abgdd_run_eq, filterMap_entry_keys]

/-! ## Claim C7 -/

/-- Claim C7, counterexample.  The claim says every run exits with code
0 however many calls fail.  In fetch-scb-rmf-funds.py with a present
key, a network-level failure of the very first call raises an uncaught
exception: the process exits with a non-zero status. -/
theorem C7_counterexample :
    (funds_main ⟨some "key123", none, downNet⟩).outcome = Outcome.crashed := rfl

/-- Claim C7 (amended): fetch-abgdd-rmf.py always exits 0 (its
`call_api` catches every per-call error); fetch-scb-rmf-simple.py exits
0 on any run whose calls all fail (errors are printed and the run
returns early); but fetch-scb-rmf-funds.py propagates a network-level
failure of a call as an uncaught exception and exits non-zero. -/
theorem C7_amended_exit_codes :
    (∀ net : String → NetResult, (abgdd_main net).outcome = Outcome.exit0)
  ∧ (∀ env : SimpleEnv, (∀ p, simple_call (env.net p) = none) →
      (simple_main env).outcome = Outcome.exit0)
  ∧ (∀ env : FundsEnv, keyMissing env.key = false →
      funds_call (env.net amcPath) = CallOutcome.raised →
      (funds_main env).outcome = Outcome.crashed) := by
  refine ⟨fun net => rfl, ?_, ?_⟩
  · intro env h
    by_cases hk : env.key.isEmpty
    · rw [simple_main_no_key env hk]
    · unfold simple_main
      rw [if_neg (by simp [hk])]
      simp [h amcPath]
  · intro env hk hr
    unfold funds_main
    rw [if_neg (by simp [hk])]
    simp [hr]

/-- Claim C7, witness for the amended statement at concrete
environments. -/
theorem C7_amended_witness :
    (abgdd_main downNet).outcome = Outcome.exit0
  ∧ (simple_main ⟨"key123", downNet⟩).outcome = Outcome.exit0
  ∧ (funds_main ⟨some "key123", none, downNet⟩).outcome = Outcome.crashed :=
  ⟨C7_amended_exit_codes.1 downNet,
   C7_amended_exit_codes.2.1 ⟨"key123", downNet⟩ (fun _ => rfl),
   C7_amended_exit_codes.2.2 ⟨some "key123", none, downNet⟩ rfl rfl⟩

/-! ## Claim C8 -/

/-- Claim C8: in fetch-abgdd-rmf.py, a 2xx response whose body is the
valid JSON value `null` decodes to the Python `None`, which is the
failure sentinel: `call_api` returns it, and the loop therefore stores
no entry for that descriptor even though the request succeeded (shown
for the first descriptor, whose key is `Fund Specification`). -/
theorem C8_null_body_is_failure (r : HttpResponse) (h2 : 200 ≤ r.status)
    (h3 : r.status < 300) (hp : r.parsed = some Json.null) :
    abgdd_call (NetResult.response r) = none
  ∧ ∀ net : String → NetResult,
      net "/fund/M0570_2565/specification" = NetResult.response r →
      ¬ ∃ v, ("Fund Specification", v) ∈ abgdd_run net := by
  have hnone : abgdd_call (NetResult.response r) = none := by
    have hcond : ¬(400 ≤ r.status ∧ r.status < 600) := by omega
    simp [abgdd_call, hcond, hp, pyOfJson, Json.isNull]
  refine ⟨hnone, ?_⟩
  intro net hnet
  rintro ⟨v, hv⟩
  rw [abgdd_run_eq] at hv
  rcases List.mem_filterMap.mp hv with ⟨ep, hep, hent⟩
  rcases Option.map_eq_some'.mp hent with ⟨w, hw, hpair⟩
  have hkeyeq : extractKey ep.2 = "Fund Specification" := congrArg Prod.fst hpair
  fin_cases hep
  · rw [hnet] at hw
    rw [hnone] at hw
    exact Option.noConfusion hw
  all_goals exact absurd hkeyeq (by decide)

/-- Claim C8, witness: a 200 response with body `null` against the
first endpoint leaves the run with no `Fund Specification` entry. -/
theorem C8_witness :
    abgdd_call (NetResult.response ⟨200, "null", some Json.null⟩) = none
  ∧ ¬ ∃ v, ("Fund Specification", v) ∈
      abgdd_run (fun _ => NetResult.response ⟨200, "null", some Json.null⟩) :=
  ⟨(C8_null_body_is_failure ⟨200, "null", some Json.null⟩ (by decide) (by decide) rfl).1,
   (C8_null_body_is_failure ⟨200, "null", some Json.null⟩ (by decide) (by decide) rfl).2
     _ rfl⟩

/-! ## Claim C4 -/

/-- Claim C4, counterexample.  The claim says the RMF filtering step
returns exactly the records whose name field contains `RMF`
case-insensitively.  The filter also keeps records whose English name
contains `RETIREMENT`: `retirementFund` has no `RMF` substring
(case-insensitively) in any of its fields, yet it is returned. -/
theorem C4_counterexample :
    pyFilterM rmfPredM [retirementFund] = some [retirementFund]
  ∧ strContains (upperStr "SCBRF") "RMF" = false
  ∧ strContains (upperStr "SCB Retirement Fund") "RMF" = false
  ∧ strContains (upperStr "X") "RMF" = false :=
  ⟨rfl, by decide, by decide, by decide⟩

/-- Claim C4 (amended): on any list of fund records whose
`proj_abbr_name` and `proj_name_en` fields are strings when present,
the RMF filtering step returns exactly the records in which `RMF`
occurs case-insensitively in the abbreviated name or in the English
name, or `RETIREMENT` occurs case-insensitively in the English name
(the Thai name is never consulted), preserving the input order. -/
theorem C4_amended_rmf_filter (funds : List Json)
    (h : ∀ j ∈ funds, fundShape j = true) :
    pyFilterM rmfPredM funds = some (funds.filter rmfNamePred)
  ∧ (funds.filter rmfNamePred).Sublist funds :=
  ⟨pyFilterM_eq_filter rmfPredM rmfNamePred funds
      (fun j hj => rmfPredM_of_shape j (h j hj)),
   List.filter_sublist funds⟩

/-- Claim C4, witness for the amended statement at a concrete record
list. -/
theorem C4_amended_witness :
    pyFilterM rmfPredM [retirementFund]
      = some ([retirementFund].filter rmfNamePred) :=
  (C4_amended_rmf_filter [retirementFund] (by decide)).1

/-! ## Claim C9 -/

/-- Claim C9: in both SCB scripts, a call that succeeds at the HTTP and
JSON level but decodes to a falsy value (empty array, empty dict, or
`null`) is treated exactly like a failed step: the truthiness check
makes `main` return at that step - same attempts, same exit, no output
file - indistinguishably from the run in which the call failed outright.
Shown at the AMC-list step of both scripts and at the fund-list step of
fetch-scb-rmf-simple.py. -/
theorem C9_falsy_success_aborts :
    simple_main (falsySimpleEnv (Json.arr [])) = ⟨[amcPath], Outcome.exit0, none⟩
  ∧ simple_main (falsySimpleEnv (Json.obj [])) = ⟨[amcPath], Outcome.exit0, none⟩
  ∧ simple_main (falsySimpleEnv Json.null) = ⟨[amcPath], Outcome.exit0, none⟩
  ∧ simple_main (falsySimpleEnv (Json.arr [])) = simple_main ⟨"key123", downNet⟩
  ∧ simple_main (falsyFundsListEnv (Json.arr []))
      = ⟨[amcPath, scbFundsPath], Outcome.exit0, none⟩
  ∧ funds_main (falsyFundsEnv (Json.arr [])) = ⟨[amcPath], Outcome.exit0, none⟩
  ∧ funds_main (falsyFundsEnv Json.null) = ⟨[amcPath], Outcome.exit0, none⟩ :=
  ⟨rfl, rfl, rfl, rfl, rfl, rfl, rfl⟩

/-! ## Claim C10 -/

/-- Claim C10: in fetch-scb-rmf-funds.py, the active list is exactly
the RMF-filtered funds with `fund_status == 'RG'` and
`cancel_date == '-'`, except that when no fund satisfies the predicate
the script silently substitutes the entire RMF-filtered list - so an
all-inactive list is displayed and exported as "active" wholesale, as
the concrete inactive record shows. -/
theorem C10_active_selection_fallback (rmf_funds : List Json)
    (h : ∀ j ∈ rmf_funds, isObj j = true) :
    funds_active_selection rmf_funds
      = some (if (rmf_funds.filter activeSpecPred).isEmpty then rmf_funds
              else rmf_funds.filter activeSpecPred)
  ∧ funds_active_selection [inactiveRmfFund] = some [inactiveRmfFund]
  ∧ activeSpecPred inactiveRmfFund = false := by
  refine ⟨?_, rfl, rfl⟩
  unfold funds_active_selection
  rw [pyFilterM_eq_filter activePredM activeSpecPred rmf_funds
    (fun j hj => activePredM_of_obj j (h j hj))]
  rfl

/-- Claim C10, witness: the selection on a one-element all-inactive
list falls back to the whole list. -/
theorem C10_witness :
    funds_active_selection [inactiveRmfFund]
      = some (if ([inactiveRmfFund].filter activeSpecPred).isEmpty then [inactiveRmfFund]
              else [inactiveRmfFund].filter activeSpecPred) :=
  (C10_active_selection_fallback [inactiveRmfFund] (by decide)).1
